import Mathlib

/-!
Shallow embedding of the flappy-wasm game core (`src/main.rs`).

Conventions of the embedding:
* Rust `i32` fields are modelled as `ℤ` (no value in the game comes near
  the `i32` bounds, and the spec describes the fields as plain integers).
* Rust `f32` fields (`Player.y`, `Player.velocity`, `State.frame_time`)
  are modelled as exact rationals `ℚ`; the spec's constants `0.2`, `2.0`,
  `-2.0`, `75.0` are the exact rationals `1/5`, `2`, `-2`, `75`.
* A Rust `expr as i32` cast of an `f32` rounds toward zero; it is
  modelled by `truncI32`.
* Rust `i32` division `/` rounds toward zero; it is modelled by
  `Int.tdiv`.
* `bracket_lib`'s `RandomNumberGenerator::range(min, max)` samples
  uniformly from the half-open range `[min, max)` (exclusive of `max`);
  the single call `random.range(10, 40)` is modelled by `10 + seed % 30`
  over an abstract generator state `seed : ℕ`.
* The rational model of `Player` idealizes `f32` arithmetic as exact.
  The game's geometric claims are insensitive to that idealization, but
  the velocity cap of `gravity_and_move` is not: under exact IEEE-754
  binary32 arithmetic the guarded increment overshoots `2.0`. The
  velocity update is therefore additionally modelled bit-faithfully:
  `f32TwoTenths = 13421773/2^26` is the exact value of the literal
  `0.2f32`, `roundF32` is binary32 round-to-nearest (ties to even) on the
  exact result, valid in the normal range the game stays in, and
  `vstepF32` is the velocity effect of one `gravity_and_move` call; the
  velocity-cap claim is settled against `vstepF32`.
-/

namespace Flappy

/-- The three game modes of the `GameMode` enum. -/
inductive GameMode
  | Menu
  | Playing
  | End
deriving DecidableEq

/-- `SCREEN_WIDTH` constant. -/
def SCREEN_WIDTH : ℤ := 80

/-- `SCREEN_HEIGHT` constant. -/
def SCREEN_HEIGHT : ℤ := 50

/-- `FRAME_DURATION` constant (milliseconds). -/
def FRAME_DURATION : ℚ := 75

/-- The `Player` struct: `x: i32`, `y: f32`, `velocity: f32`, `frame: usize`. -/
structure Player where
  x : ℤ
  y : ℚ
  velocity : ℚ
  frame : ℕ
deriving DecidableEq

/-- `Player::new(x, y)`: position `(x, y as f32)`, velocity `0.0`, frame `0`. -/
def Player.new (x y : ℤ) : Player :=
  { x := x, y := (y : ℚ), velocity := 0, frame := 0 }

/-- `Player::gravity_and_move`: add `0.2` to velocity while it is below
`2.0`, add velocity to `y`, increment `x`, clamp `y` to `≥ 0`. -/
def Player.gravity_and_move (p : Player) : Player :=
  let v := if p.velocity < 2 then p.velocity + 1/5 else p.velocity
  let y := p.y + v
  { x := p.x + 1, y := if y < 0 then 0 else y, velocity := v, frame := p.frame }

/-- `Player::flap`: set velocity to `-2.0`. -/
def Player.flap (p : Player) : Player :=
  { p with velocity := -2 }

/-- Rust `f32 as i32` cast: round toward zero. For a rational `q = num/den`
(with `den > 0`) this is exactly the toward-zero division of the numerator
by the denominator. -/
def truncI32 (q : ℚ) : ℤ :=
  Int.tdiv q.num q.den

/-- The `Obstacle` struct: `x: i32`, `gap_y: i32`, `size: i32`. -/
structure Obstacle where
  x : ℤ
  gap_y : ℤ
  size : ℤ
deriving DecidableEq

/-- `Obstacle::new(x, score)`: `gap_y = random.range(10, 40)` (uniform over
the half-open range `[10, 40)`, modelled by `10 + seed % 30` over the
abstract generator state `seed`), `size = i32::max(2, 20 - score)`. -/
def Obstacle.new (x score : ℤ) (seed : ℕ) : Obstacle :=
  { x := x, gap_y := 10 + ((seed % 30 : ℕ) : ℤ), size := max 2 (20 - score) }

/-- `Obstacle::hit_obstacle(player)`: with `half_size = size / 2` (i32
division, toward zero), returns
`player.x == x && (player.y as i32 < gap_y - half_size || player.y as i32 > gap_y + half_size)`. -/
def Obstacle.hit_obstacle (o : Obstacle) (p : Player) : Bool :=
  let half_size := Int.tdiv o.size 2
  p.x == o.x &&
    (decide (truncI32 p.y < o.gap_y - half_size) ||
     decide (truncI32 p.y > o.gap_y + half_size))

/-- The subset of `VirtualKeyCode` the game reacts to; `Other` stands for
every other key. -/
inductive VirtualKeyCode
  | Space
  | P
  | Q
  | Other
deriving DecidableEq

/-- Per-tick data the host context (`BTerm`) supplies to the game:
`frame_time_ms` elapsed milliseconds, `key` the pressed key if any, and
`seed` the abstract state of the process-wide random generator used when
an obstacle is constructed during the tick. -/
structure TickInput where
  frame_time_ms : ℚ
  key : Option VirtualKeyCode
  seed : ℕ
deriving DecidableEq

/-- The `State` struct: player, frame-time accumulator, obstacle, mode, score. -/
structure State where
  player : Player
  frame_time : ℚ
  obstacle : Obstacle
  mode : GameMode
  score : ℤ
deriving DecidableEq

/-- `State::new()`: player at `(5, 25)`, accumulator `0`, obstacle at
`SCREEN_WIDTH + 10` with score `0`, mode `Menu`, score `0`. -/
def State.new (seed : ℕ) : State :=
  { player := Player.new 5 25, frame_time := 0,
    obstacle := Obstacle.new (SCREEN_WIDTH + 10) 0 seed,
    mode := GameMode.Menu, score := 0 }

/-- The player as it stands after the physics and input phases of
`State::play`: `gravity_and_move` runs when the accumulated frame time
exceeds `FRAME_DURATION`, then `flap` runs when the space key is down. -/
def State.playerAfterInput (s : State) (i : TickInput) : Player :=
  let p := if s.frame_time + i.frame_time_ms > FRAME_DURATION
           then s.player.gravity_and_move else s.player
  if i.key = some VirtualKeyCode.Space then p.flap else p

/-- The frame-time accumulator after a `State::play` tick: reset to `0`
when the physics step ran, otherwise it keeps the accumulated value. -/
def State.frameTimeAfter (s : State) (i : TickInput) : ℚ :=
  if s.frame_time + i.frame_time_ms > FRAME_DURATION then 0
  else s.frame_time + i.frame_time_ms

/-- The score after a `State::play` tick: incremented exactly when the
(post-physics) player has passed the obstacle. -/
def State.scoreAfter (s : State) (i : TickInput) : ℤ :=
  if (s.playerAfterInput i).x > s.obstacle.x then s.score + 1 else s.score

/-- The obstacle after a `State::play` tick: replaced by
`Obstacle::new(player.x + SCREEN_WIDTH, score + 1)` exactly when the
(post-physics) player has passed it. -/
def State.obstacleAfter (s : State) (i : TickInput) : Obstacle :=
  if (s.playerAfterInput i).x > s.obstacle.x then
    Obstacle.new ((s.playerAfterInput i).x + SCREEN_WIDTH) (s.score + 1) i.seed
  else s.obstacle

/-- `State::play`: physics step and flap, score/obstacle replacement, then
the end check `player.y as i32 > SCREEN_HEIGHT || obstacle.hit_obstacle(player)`
sets the mode to `End`; rendering calls are side-effect free on the state
and are omitted. -/
def State.play (s : State) (i : TickInput) : State :=
  let p := s.playerAfterInput i
  let o := s.obstacleAfter i
  { player := p, frame_time := s.frameTimeAfter i, obstacle := o,
    mode := if truncI32 p.y > SCREEN_HEIGHT ∨ o.hit_obstacle p = true
            then GameMode.End else s.mode,
    score := s.scoreAfter i }

/-- `State::restart`: player `(5, 25)`, accumulator `0`, obstacle at
`SCREEN_WIDTH` with score `0`, mode `Playing`, score `0`. -/
def State.restart (_s : State) (seed : ℕ) : State :=
  { player := Player.new 5 25, frame_time := 0,
    obstacle := Obstacle.new SCREEN_WIDTH 0 seed,
    mode := GameMode.Playing, score := 0 }

/-- `State::main_menu`: `P` restarts, `Q` sets the quitting flag (second
component), anything else is a no-op. -/
def State.main_menu (s : State) (i : TickInput) : State × Bool :=
  match i.key with
  | some VirtualKeyCode.P => (s.restart i.seed, false)
  | some VirtualKeyCode.Q => (s, true)
  | _ => (s, false)

/-- `State::dead`: `P` restarts, `Q` sets the quitting flag (second
component), anything else is a no-op. -/
def State.dead (s : State) (i : TickInput) : State × Bool :=
  match i.key with
  | some VirtualKeyCode.P => (s.restart i.seed, false)
  | some VirtualKeyCode.Q => (s, true)
  | _ => (s, false)

/-- `GameState::tick for State`: dispatch on the current mode. -/
def State.tick (s : State) (i : TickInput) : State × Bool :=
  match s.mode with
  | GameMode.Menu => s.main_menu i
  | GameMode.Playing => (s.play i, false)
  | GameMode.End => s.dead i

/-- A single player mutation performed during play: a physics step or a flap. -/
inductive PlayerOp
  | gravity
  | flap
deriving DecidableEq

/-- Apply one player mutation. -/
def Player.applyOp (p : Player) : PlayerOp → Player
  | PlayerOp.gravity => p.gravity_and_move
  | PlayerOp.flap => p.flap

/-- Apply a sequence of player mutations, oldest first. -/
def Player.applyOps (p : Player) (ops : List PlayerOp) : Player :=
  ops.foldl Player.applyOp p

/-! ### Bit-faithful binary32 model of the velocity update

`Player.velocity` is an `f32`. The literal `0.2` is not representable in
binary32: the compiled constant is the nearest `f32`,
`13421773 * 2 ^ (-26) = 0.20000000298023223876953125`. Each
`velocity += 0.2` rounds the exact sum to the nearest binary32 value
(ties to even), and the guard `velocity < 2.0` compares exactly (both
operands are binary32 values; `2.0` and `-2.0` are exactly
representable). All velocities the game produces lie well inside the
binary32 normal range, so rounding never overflows or goes subnormal. -/

/-- The exact rational value of the `f32` literal `0.2`:
`13421773 / 2 ^ 26`. -/
def f32TwoTenths : ℚ := 13421773 / 67108864

/-- Round a rational to the nearest integer, ties to even. -/
def rne (q : ℚ) : ℤ :=
  if q - ⌊q⌋ < 1/2 then ⌊q⌋
  else if q - ⌊q⌋ = 1/2 then (if 2 ∣ ⌊q⌋ then ⌊q⌋ else ⌊q⌋ + 1)
  else ⌊q⌋ + 1

/-- Binary32 round-to-nearest (ties to even) of a positive rational in
the normal range: scale into `[2^23, 2^24)` by the binade exponent, round
the 24-bit significand, and scale back. -/
def roundPosF32 (q : ℚ) : ℚ :=
  ((rne (q * 2 ^ (23 - Int.log 2 q)) : ℤ) : ℚ) * 2 ^ (Int.log 2 q - 23)

/-- Binary32 round-to-nearest (ties to even) of an exact rational result,
extended to negatives by symmetry (IEEE rounding is sign-symmetric). -/
def roundF32 (q : ℚ) : ℚ :=
  if q < 0 then -roundPosF32 (-q) else roundPosF32 q

/-- The velocity effect of one `Player::gravity_and_move` call under
exact binary32 semantics:
`if velocity < 2.0 { velocity += 0.2 }` with the compiled constant
`f32TwoTenths` and correctly rounded addition. -/
def vstepF32 (v : ℚ) : ℚ :=
  if v < 2 then roundF32 (v + f32TwoTenths) else v

/-- The velocity effect of one play operation under binary32 semantics:
a physics step applies `vstepF32`; `flap` writes exactly `-2.0`
(representable in binary32). -/
def applyVelF32 (v : ℚ) : PlayerOp → ℚ
  | PlayerOp.gravity => vstepF32 v
  | PlayerOp.flap => -2

/-- The velocity after a sequence of play operations under binary32
semantics, oldest first. -/
def velF32Ops (v : ℚ) (ops : List PlayerOp) : ℚ :=
  ops.foldl applyVelF32 v

/-- The terminal velocity of the binary32 gravity recursion:
`2 + 2 ^ (-22) = 2.0000002384185791015625`, strictly above the nominal
cap `2.0`. -/
def VF32CAP : ℚ := 8388609/4194304

/-- The binary32 velocity trajectory of repeated gravity steps from the
initial velocity `0` (each entry verified against `roundF32` below): ten
entries strictly below `2`, then the overshoot value `VF32CAP`. -/
def aF32List : List ℚ :=
  [0, 13421773/67108864, 13421773/33554432, 5033165/8388608,
   13421773/16777216, 1, 5033165/4194304, 2936013/2097152,
   6710887/4194304, 1887437/1048576, 8388609/4194304]

/-- The binary32 velocity trajectory of repeated gravity steps from the
post-flap velocity `-2` (each entry verified against `roundF32` below):
twenty entries strictly below `2`, then the overshoot value `VF32CAP`. -/
def bF32List : List ℚ :=
  [-2, -(7549747/4194304), -(3355443/2097152), -(5872025/4194304),
   -(1258291/1048576), -(16777213/16777216), -(6710885/8388608),
   -(10066327/16777216), -(1677721/4194304), -(13421763/67108864),
   5/33554432, 13421783/67108864, 6710889/16777216, 2516583/4194304,
   13421775/16777216, 8388609/8388608, 10066331/8388608,
   11744053/8388608, 13421775/8388608, 15099497/8388608,
   8388609/4194304]

/-- The binary32 velocity after `n` gravity steps from `0` (constant
`VF32CAP` from step `10` on). -/
def aF32 (n : ℕ) : ℚ := aF32List.getD n VF32CAP

/-- The binary32 velocity after `n` gravity steps from `-2` (constant
`VF32CAP` from step `20` on). -/
def bF32 (n : ℕ) : ℚ := bF32List.getD n VF32CAP

/-- A velocity is reachable under binary32 semantics when it occurs along
the gravity trajectory from the initial velocity `0` or from the
post-flap velocity `-2`; every gravity/flap sequence stays inside this
set. -/
def VelF32Reach (v : ℚ) : Prop :=
  (∃ n : ℕ, v = (vstepF32)^[n] 0) ∨ (∃ n : ℕ, v = (vstepF32)^[n] (-2))

/-! ### Elementary lemmas about the embedded operations -/

lemma truncI32_eq_floor (q : ℚ) (h : 0 ≤ q) : truncI32 q = ⌊q⌋ := by
  rw [truncI32, Rat.floor_def]
  exact Int.tdiv_eq_ediv (Rat.num_nonneg.mpr h) (Int.natCast_nonneg _)

lemma truncI32_eval (q : ℚ) (n : ℤ) (h0 : 0 ≤ n) (h1 : (n : ℚ) ≤ q)
    (h2 : q < (n : ℚ) + 1) : truncI32 q = n := by
  rw [truncI32_eq_floor q (le_trans (by exact_mod_cast h0) h1)]
  exact Int.floor_eq_iff.mpr ⟨h1, h2⟩

lemma hit_iff (o : Obstacle) (p : Player) :
    o.hit_obstacle p = true ↔
      (p.x = o.x ∧ (truncI32 p.y < o.gap_y - Int.tdiv o.size 2 ∨
                    o.gap_y + Int.tdiv o.size 2 < truncI32 p.y)) := by
  simp [Obstacle.hit_obstacle]

lemma hit_false_of_x_ne (o : Obstacle) (p : Player) (h : p.x ≠ o.x) :
    o.hit_obstacle p = false := by
  simp [Obstacle.hit_obstacle, h]

lemma play_player (s : State) (i : TickInput) :
    (s.play i).player = s.playerAfterInput i := rfl

lemma play_obstacle (s : State) (i : TickInput) :
    (s.play i).obstacle = s.obstacleAfter i := rfl

lemma play_score (s : State) (i : TickInput) :
    (s.play i).score = s.scoreAfter i := rfl

lemma play_frame_time (s : State) (i : TickInput) :
    (s.play i).frame_time = s.frameTimeAfter i := rfl

lemma play_mode (s : State) (i : TickInput) :
    (s.play i).mode =
      if truncI32 (s.playerAfterInput i).y > SCREEN_HEIGHT ∨
         (s.obstacleAfter i).hit_obstacle (s.playerAfterInput i) = true
      then GameMode.End else s.mode := rfl

lemma gravity_velocity (p : Player) :
    (p.gravity_and_move).velocity =
      if p.velocity < 2 then p.velocity + 1/5 else p.velocity := rfl

lemma gravity_x (p : Player) : (p.gravity_and_move).x = p.x + 1 := rfl

lemma gravity_y (p : Player) :
    (p.gravity_and_move).y =
      if p.y + (p.gravity_and_move).velocity < 0 then 0
      else p.y + (p.gravity_and_move).velocity := rfl

lemma gravity_y_nonneg (p : Player) : 0 ≤ (p.gravity_and_move).y := by
  rw [gravity_y]
  split
  · exact le_refl 0
  · exact not_lt.mp (by assumption)

lemma flap_velocity (p : Player) : (p.flap).velocity = -2 := rfl

lemma flap_y (p : Player) : (p.flap).y = p.y := rfl

lemma applyOps_nil (p : Player) : p.applyOps [] = p := rfl

lemma applyOps_cons (p : Player) (op : PlayerOp) (ops : List PlayerOp) :
    p.applyOps (op :: ops) = (p.applyOp op).applyOps ops := rfl

/-! ### Vertical-position invariant -/

lemma y_nonneg_applyOp (p : Player) (op : PlayerOp) (h : 0 ≤ p.y) :
    0 ≤ (p.applyOp op).y := by
  cases op with
  | gravity => exact gravity_y_nonneg p
  | flap => rw [Player.applyOp, flap_y]; exact h

lemma y_nonneg_applyOps (ops : List PlayerOp) :
    ∀ p : Player, 0 ≤ p.y → 0 ≤ (p.applyOps ops).y := by
  induction ops with
  | nil => intro p h; exact h
  | cons op ops ih =>
    intro p h
    rw [applyOps_cons]
    exact ih _ (y_nonneg_applyOp p op h)

lemma truncI32_intCast (n : ℤ) : truncI32 ((n : ℚ)) = n := by
  rw [truncI32, Rat.num_intCast, Rat.den_intCast]
  exact Int.tdiv_one n

lemma truncI32_natCast (n : ℕ) : truncI32 ((n : ℚ)) = n := by
  exact_mod_cast truncI32_intCast (n : ℤ)

lemma truncI32_ofNat (n : ℕ) [n.AtLeastTwo] :
    truncI32 (OfNat.ofNat n : ℚ) = OfNat.ofNat n := by
  simpa using truncI32_natCast n

/-! ### The claims -/

/-- C1, counterexample: read with the player's exact (real-valued) vertical
position, "`hit_obstacle` returns true iff the horizontal positions are
equal and the vertical position lies outside
`[gap_center - half_size, gap_center + half_size]`" is false: at
`gap_y = 25`, `size = 10` (window `[20, 30]`) and player `y = 30.5`, the
vertical position is outside the window but `hit_obstacle` returns false
(the cast `y as i32` truncates `30.5` to `30`, inside the window). -/
theorem C1_counterexample :
    ¬ (∀ (o : Obstacle) (p : Player),
        o.hit_obstacle p = true ↔
          (p.x = o.x ∧
            (p.y < ((o.gap_y - Int.tdiv o.size 2 : ℤ) : ℚ) ∨
             ((o.gap_y + Int.tdiv o.size 2 : ℤ) : ℚ) < p.y))) := by
  intro h
  have hy : (Player.mk 10 (61/2) 0 0).y = 61/2 := rfl
  have hhit : (Obstacle.mk 10 25 10).hit_obstacle (Player.mk 10 (61/2) 0 0) = true := by
    refine (h _ _).mpr ⟨rfl, Or.inr ?_⟩
    rw [hy]
    norm_num [show Int.tdiv (10:ℤ) 2 = 5 from rfl]
  rw [hit_iff] at hhit
  obtain ⟨-, hc⟩ := hhit
  rw [hy, truncI32_eval (61/2) 30 (by norm_num) (by norm_num) (by norm_num),
    show Int.tdiv (10:ℤ) 2 = 5 from rfl] at hc
  dsimp only at hc
  omega

/-- C1, amended: `hit_obstacle` returns true iff the player's horizontal
position equals the obstacle's and the player's vertical position,
truncated toward zero to an integer, lies outside the gap window
`[gap_y - size/2, gap_y + size/2]`; for the obstacle `x = 10`,
`gap_y = 25`, `size = 10` (window `[20, 30]`) it returns true at player
`(10, 5)` and false at player `(10, 25)`. -/
theorem C1_amended :
    (∀ (o : Obstacle) (p : Player),
        o.hit_obstacle p = true ↔
          (p.x = o.x ∧
            ¬(o.gap_y - Int.tdiv o.size 2 ≤ truncI32 p.y ∧
              truncI32 p.y ≤ o.gap_y + Int.tdiv o.size 2))) ∧
    (Obstacle.mk 10 25 10).hit_obstacle (Player.mk 10 5 0 0) = true ∧
    (Obstacle.mk 10 25 10).hit_obstacle (Player.mk 10 25 0 0) = false := by
  refine ⟨?_, ?_, ?_⟩
  · intro o p
    rw [hit_iff]
    refine and_congr_right fun _ => ?_
    omega
  · rw [hit_iff]
    refine ⟨rfl, Or.inl ?_⟩
    have hy : (Player.mk 10 (5:ℚ) 0 0).y = (5:ℚ) := rfl
    rw [hy, truncI32_ofNat, show Int.tdiv (10:ℤ) 2 = 5 from rfl]
    dsimp only
    omega
  · rw [Bool.eq_false_iff, Ne, hit_iff]
    rintro ⟨-, hc⟩
    have hy : (Player.mk 10 (25:ℚ) 0 0).y = (25:ℚ) := rfl
    rw [hy, truncI32_ofNat, show Int.tdiv (10:ℤ) 2 = 5 from rfl] at hc
    dsimp only at hc
    omega

/-- C2: for every score `s ≥ 0`, the gap size of `Obstacle::new(x, s)` is
`max(2, 20 - s)`: it is `20 - s` for `0 ≤ s < 18`, it is `2` for
`s ≥ 18`, and it is non-increasing in the score. -/
theorem C2_gap_size (x s : ℤ) (seed : ℕ) (h : 0 ≤ s) :
    (Obstacle.new x s seed).size = max 2 (20 - s) ∧
    (s < 18 → (Obstacle.new x s seed).size = 20 - s) ∧
    (18 ≤ s → (Obstacle.new x s seed).size = 2) ∧
    (∀ t : ℤ, s ≤ t → (Obstacle.new x t seed).size ≤ (Obstacle.new x s seed).size) := by
  refine ⟨rfl, ?_, ?_, ?_⟩
  · intro hs
    exact max_eq_right (by omega)
  · intro hs
    exact max_eq_left (by omega)
  · intro t ht
    exact max_le_max le_rfl (by omega)

/-- Witness for C2 at scores `3` and `18`. -/
theorem C2_gap_size_witness :
    (Obstacle.new 0 3 0).size = 20 - 3 ∧ (Obstacle.new 5 18 2).size = 2 :=
  ⟨(C2_gap_size 0 3 0 (by omega)).2.1 (by omega),
   (C2_gap_size 5 18 2 (by omega)).2.2.1 (by omega)⟩

/-- C7: from any state with a non-negative vertical position, the vertical
position stays non-negative after every sequence of physics steps and
flaps: each `gravity_and_move` clamps it to `≥ 0` and `flap` leaves it
unchanged. -/
theorem C7_y_never_negative :
    (∀ (p : Player) (ops : List PlayerOp), 0 ≤ p.y → 0 ≤ (p.applyOps ops).y) ∧
    (∀ p : Player, 0 ≤ (p.gravity_and_move).y) ∧
    (∀ p : Player, (p.flap).y = p.y) :=
  ⟨fun p ops h => y_nonneg_applyOps ops p h, gravity_y_nonneg, flap_y⟩

/-- Witness for C7: the initial player, after a flap and two gravity
steps, still has a non-negative vertical position. -/
theorem C7_y_never_negative_witness :
    0 ≤ ((Player.new 5 25).applyOps
      [PlayerOp.flap, PlayerOp.gravity, PlayerOp.gravity]).y :=
  C7_y_never_negative.1 (Player.new 5 25) _ (by norm_num [Player.new])

/-- C9: `flap` sets the velocity to exactly `-2.0` whatever it was before,
and leaves the horizontal position, the vertical position and the
animation frame unchanged. -/
theorem C9_flap_override (p : Player) :
    (p.flap).velocity = -2 ∧ (p.flap).x = p.x ∧ (p.flap).y = p.y ∧
    (p.flap).frame = p.frame :=
  ⟨rfl, rfl, rfl, rfl⟩

/-! ### Tick-level helper lemmas and witness states -/

lemma playerAfterInput_id (s : State) (i : TickInput)
    (h1 : ¬ s.frame_time + i.frame_time_ms > FRAME_DURATION)
    (h2 : i.key ≠ some VirtualKeyCode.Space) :
    s.playerAfterInput i = s.player := by
  rw [State.playerAfterInput]
  simp only [if_neg h1, if_neg h2]

lemma obstacleAfter_id (s : State) (i : TickInput)
    (h : ¬ (s.playerAfterInput i).x > s.obstacle.x) :
    s.obstacleAfter i = s.obstacle := by
  rw [State.obstacleAfter, if_neg h]

lemma mode_end_iff (s : State) (i : TickInput) (h : s.mode = GameMode.Playing) :
    ((s.play i).mode = GameMode.End ↔
      (truncI32 (s.playerAfterInput i).y > SCREEN_HEIGHT ∨
       (s.obstacleAfter i).hit_obstacle (s.playerAfterInput i) = true)) := by
  rw [play_mode, h]
  by_cases hc : truncI32 (s.playerAfterInput i).y > SCREEN_HEIGHT ∨
      (s.obstacleAfter i).hit_obstacle (s.playerAfterInput i) = true
  · rw [if_pos hc]
    exact ⟨fun _ => hc, fun _ => rfl⟩
  · rw [if_neg hc]
    exact ⟨fun hEq => GameMode.noConfusion hEq, fun hor => absurd hor hc⟩

/-- Concrete Playing state for the C4 witness: the player's vertical
position is `51`, above the screen. -/
def c4State : State :=
  { player := Player.mk 10 51 0 0, frame_time := 0,
    obstacle := Obstacle.mk 90 25 20, mode := GameMode.Playing, score := 0 }

/-- Tick data for the C4 witness: a short frame, no key pressed. -/
def c4Input : TickInput := { frame_time_ms := 10, key := none, seed := 0 }

/-- Concrete Playing state for the C5 witness: player at `x = 100`, one
column past the obstacle at `x = 99`. -/
def c5State : State :=
  { player := Player.mk 100 25 0 0, frame_time := 0,
    obstacle := Obstacle.mk 99 25 20, mode := GameMode.Playing, score := 0 }

/-- Tick data for the C5 witness: a zero-length frame, no key pressed. -/
def c5Input : TickInput := { frame_time_ms := 0, key := none, seed := 3 }

/-- Concrete Playing state for the C10 witness: the player's vertical
position is `50.5`, strictly between `50` and `51`. -/
def c10State : State :=
  { player := Player.mk 10 (101/2) 0 0, frame_time := 0,
    obstacle := Obstacle.mk 90 25 20, mode := GameMode.Playing, score := 0 }

/-- Tick data for the C10 witness: a zero-length frame, no key pressed. -/
def c10Input : TickInput := { frame_time_ms := 0, key := none, seed := 0 }

/-- C4: from `Playing`, a tick ends in mode `End` exactly when (after the
tick's physics/flap and obstacle replacement) the player's truncated
vertical position exceeds `SCREEN_HEIGHT = 50` or the obstacle collision
test fires; otherwise the tick stays in `Playing`, and a Playing tick can
never produce `Menu`. -/
theorem C4_end_transition (s : State) (i : TickInput)
    (h : s.mode = GameMode.Playing) :
    ((s.play i).mode = GameMode.End ↔
      (truncI32 (s.playerAfterInput i).y > SCREEN_HEIGHT ∨
       (s.obstacleAfter i).hit_obstacle (s.playerAfterInput i) = true)) ∧
    ((s.play i).mode = GameMode.Playing ∨ (s.play i).mode = GameMode.End) ∧
    (s.play i).mode ≠ GameMode.Menu := by
  refine ⟨mode_end_iff s i h, ?_, ?_⟩
  · rw [play_mode, h]
    split
    · exact Or.inr rfl
    · exact Or.inl rfl
  · rw [play_mode, h]
    split
    · exact fun hEq => GameMode.noConfusion hEq
    · exact fun hEq => GameMode.noConfusion hEq

/-- Witness for C4: a Playing state with player vertical position `51`
transitions to `End` on the next tick. -/
theorem C4_end_transition_witness :
    (c4State.play c4Input).mode = GameMode.End := by
  refine ((C4_end_transition c4State c4Input rfl).1).mpr (Or.inl ?_)
  have hp : c4State.playerAfterInput c4Input = c4State.player :=
    playerAfterInput_id _ _ (by norm_num [c4State, c4Input, FRAME_DURATION])
      (by simp [c4Input])
  rw [hp, show c4State.player.y = (51:ℚ) from rfl, truncI32_ofNat]
  decide

/-- C5: during a Playing tick, whenever the (post-physics) player's
horizontal position strictly exceeds the obstacle's, the score is
incremented by `1` and the obstacle is replaced by
`Obstacle::new(player.x + SCREEN_WIDTH, score + 1)`, whose gap size is
computed from the incremented score. -/
theorem C5_score_and_obstacle (s : State) (i : TickInput)
    (h : (s.playerAfterInput i).x > s.obstacle.x) :
    (s.play i).score = s.score + 1 ∧
    (s.play i).obstacle =
      Obstacle.new ((s.playerAfterInput i).x + SCREEN_WIDTH) (s.score + 1) i.seed ∧
    (s.play i).obstacle.x = (s.playerAfterInput i).x + SCREEN_WIDTH ∧
    (s.play i).obstacle.size = max 2 (20 - (s.score + 1)) := by
  have h2 : (s.play i).obstacle =
      Obstacle.new ((s.playerAfterInput i).x + SCREEN_WIDTH) (s.score + 1) i.seed := by
    rw [play_obstacle, State.obstacleAfter, if_pos h]
  refine ⟨?_, h2, by rw [h2]; rfl, by rw [h2]; rfl⟩
  rw [play_score, State.scoreAfter, if_pos h]

/-- Witness for C5: player at `x = 100`, obstacle at `x = 99`: the score
increments and the new obstacle sits at `x = 180 = 100 + 80`. -/
theorem C5_score_and_obstacle_witness :
    (c5State.play c5Input).score = c5State.score + 1 ∧
    (c5State.play c5Input).obstacle.x = 180 := by
  have hp : c5State.playerAfterInput c5Input = c5State.player :=
    playerAfterInput_id _ _ (by norm_num [c5State, c5Input, FRAME_DURATION])
      (by simp [c5Input])
  have h := C5_score_and_obstacle c5State c5Input (by rw [hp]; decide)
  refine ⟨h.1, ?_⟩
  rw [h.2.2.1, hp]
  decide

/-- C6: with the start key `P` pressed in `Menu` or `End` mode, the tick
runs `restart`: the player is reset to `(5, 25)` with velocity `0`, the
score to `0`, the frame-time accumulator to `0`, the obstacle is a fresh
`Obstacle::new(SCREEN_WIDTH, 0)` built with score `0`, and the mode
becomes `Playing`. -/
theorem C6_restart_resets (s : State) (i : TickInput)
    (hm : s.mode = GameMode.Menu ∨ s.mode = GameMode.End)
    (hk : i.key = some VirtualKeyCode.P) :
    (s.tick i).1 = s.restart i.seed ∧
    (s.tick i).1.player.x = 5 ∧ (s.tick i).1.player.y = 25 ∧
    (s.tick i).1.player.velocity = 0 ∧ (s.tick i).1.score = 0 ∧
    (s.tick i).1.frame_time = 0 ∧
    (s.tick i).1.obstacle = Obstacle.new SCREEN_WIDTH 0 i.seed ∧
    (s.tick i).1.mode = GameMode.Playing := by
  have ht : (s.tick i).1 = s.restart i.seed := by
    rcases hm with hm | hm
    · simp only [State.tick, hm, State.main_menu, hk]
    · simp only [State.tick, hm, State.dead, hk]
  refine ⟨ht, by rw [ht]; rfl, by rw [ht]; norm_num [State.restart, Player.new],
    by rw [ht]; rfl, by rw [ht]; rfl, by rw [ht]; rfl, by rw [ht]; rfl,
    by rw [ht]; rfl⟩

/-- Witness for C6: pressing `P` in the freshly constructed (Menu) state
yields mode `Playing` and score `0`. -/
theorem C6_restart_resets_witness :
    ((State.new 0).tick ⟨0, some VirtualKeyCode.P, 7⟩).1.mode = GameMode.Playing ∧
    ((State.new 0).tick ⟨0, some VirtualKeyCode.P, 7⟩).1.score = 0 :=
  ⟨(C6_restart_resets _ _ (Or.inl rfl) rfl).2.2.2.2.2.2.2,
   (C6_restart_resets _ _ (Or.inl rfl) rfl).2.2.2.2.1⟩

/-- C8, counterexample: the gap center `40` is never produced:
`random.range(10, 40)` samples the half-open range `[10, 40)`, so "every
integer value in `[10, 40]` is attainable" fails at `40`. -/
theorem C8_counterexample :
    ¬ (∀ v : ℤ, 10 ≤ v → v ≤ 40 → ∃ (x score : ℤ) (seed : ℕ),
        (Obstacle.new x score seed).gap_y = v) := by
  intro h
  obtain ⟨x, score, seed, hs⟩ := h 40 (by omega) (by omega)
  have hlt : ((seed % 30 : ℕ) : ℤ) < 30 := by
    exact_mod_cast Nat.mod_lt seed (by omega : 0 < 30)
  rw [Obstacle.new] at hs
  dsimp only at hs
  omega

/-- C8, amended: every obstacle's gap center lies in `[10, 39]` (the
half-open range `[10, 40)`), and every integer in `[10, 39]` is attained
for some random-generator state, whatever the position and score
arguments. -/
theorem C8_gap_range :
    (∀ (x score : ℤ) (seed : ℕ),
        10 ≤ (Obstacle.new x score seed).gap_y ∧
        (Obstacle.new x score seed).gap_y ≤ 39) ∧
    (∀ v : ℤ, 10 ≤ v → v ≤ 39 → ∀ (x score : ℤ), ∃ seed : ℕ,
        (Obstacle.new x score seed).gap_y = v) := by
  constructor
  · intro x score seed
    have hlt : ((seed % 30 : ℕ) : ℤ) < 30 := by
      exact_mod_cast Nat.mod_lt seed (by omega : 0 < 30)
    have hge : (0:ℤ) ≤ ((seed % 30 : ℕ) : ℤ) := Int.natCast_nonneg _
    constructor
    · dsimp only [Obstacle.new]
      omega
    · dsimp only [Obstacle.new]
      omega
  · intro v h1 h2 x score
    refine ⟨(v - 10).toNat, ?_⟩
    dsimp only [Obstacle.new]
    rw [Nat.mod_eq_of_lt (by omega : (v - 10).toNat < 30)]
    omega

/-- Witness for C8 (amended): the range bound at a concrete state, and
attainability of the extreme value `39`. -/
theorem C8_gap_range_witness :
    (10 ≤ (Obstacle.new 0 0 5).gap_y ∧ (Obstacle.new 0 0 5).gap_y ≤ 39) ∧
    (∃ seed : ℕ, (Obstacle.new 90 2 seed).gap_y = 39) :=
  ⟨C8_gap_range.1 0 0 5, C8_gap_range.2 39 (by omega) (by omega) 90 2⟩

/-- C10: the real-valued vertical position is truncated toward zero before
both end-of-game tests: from `Playing`, the tick ends the game exactly
when the truncated position exceeds `50` or the collision test fires; a
position strictly between `50` and `51` truncates to `50`, so such a tick
stays in `Playing` when no collision fires; and the collision test
depends only on the truncated vertical position. -/
theorem C10_truncation :
    (∀ (s : State) (i : TickInput), s.mode = GameMode.Playing →
        ((s.play i).mode = GameMode.End ↔
          (truncI32 (s.playerAfterInput i).y > SCREEN_HEIGHT ∨
           (s.obstacleAfter i).hit_obstacle (s.playerAfterInput i) = true))) ∧
    (∀ q : ℚ, 50 < q → q < 51 → truncI32 q = 50) ∧
    (∀ (s : State) (i : TickInput), s.mode = GameMode.Playing →
        50 < (s.playerAfterInput i).y → (s.playerAfterInput i).y < 51 →
        (s.obstacleAfter i).hit_obstacle (s.playerAfterInput i) = false →
        (s.play i).mode = GameMode.Playing) ∧
    (∀ (o : Obstacle) (p q : Player), p.x = q.x → truncI32 p.y = truncI32 q.y →
        o.hit_obstacle p = o.hit_obstacle q) := by
  have htr : ∀ q : ℚ, 50 < q → q < 51 → truncI32 q = 50 := by
    intro q h1 h2
    refine truncI32_eval q 50 (by omega) ?_ ?_
    · push_cast
      linarith
    · push_cast
      linarith
  refine ⟨fun s i h => mode_end_iff s i h, htr, ?_, ?_⟩
  · intro s i hmode h1 h2 hhit
    rw [play_mode, if_neg, hmode]
    rintro (hc | hc)
    · rw [htr _ h1 h2] at hc
      exact absurd hc (by decide)
    · rw [hhit] at hc
      exact Bool.noConfusion hc
  · intro o p q hx hy
    simp only [Obstacle.hit_obstacle, hx, hy]

/-- Witness for C10: `50.5` truncates to `50`, and a Playing tick with the
player at vertical position `50.5` and no collision stays in `Playing`. -/
theorem C10_truncation_witness :
    truncI32 (101/2) = 50 ∧ (c10State.play c10Input).mode = GameMode.Playing := by
  constructor
  · exact C10_truncation.2.1 (101/2) (by norm_num) (by norm_num)
  · have hp : c10State.playerAfterInput c10Input = c10State.player :=
      playerAfterInput_id _ _ (by norm_num [c10State, c10Input, FRAME_DURATION])
        (by simp [c10Input])
    have hobs : c10State.obstacleAfter c10Input = c10State.obstacle :=
      obstacleAfter_id _ _ (by rw [hp]; decide)
    refine C10_truncation.2.2.1 c10State c10Input rfl ?_ ?_ ?_
    · rw [hp]
      norm_num [c10State]
    · rw [hp]
      norm_num [c10State]
    · rw [hobs, hp]
      exact hit_false_of_x_ne _ _ (by decide)


/-! ### Lemmas for the binary32 velocity model -/

lemma log2_eq_of (q : ℚ) (e : ℤ) (h0 : 0 < q) (h1 : (2:ℚ) ^ e ≤ q)
    (h2 : q < (2:ℚ) ^ (e + 1)) : Int.log 2 q = e := by
  have hc : ((2:ℕ) : ℚ) = (2:ℚ) := by norm_num
  have ha : e ≤ Int.log 2 q := by
    rw [← Int.zpow_le_iff_le_log (by norm_num) h0, hc]
    exact h1
  have hb : Int.log 2 q < e + 1 := by
    rw [← Int.lt_zpow_iff_log_lt (by norm_num) h0, hc]
    exact h2
  omega

lemma roundPosF32_eval (q r : ℚ) (e : ℤ) (h0 : 0 < q) (h1 : (2:ℚ) ^ e ≤ q)
    (h2 : q < (2:ℚ) ^ (e + 1))
    (hr : ((rne (q * 2 ^ (23 - e)) : ℤ) : ℚ) * 2 ^ (e - 23) = r) :
    roundPosF32 q = r := by
  simp only [roundPosF32]
  rw [log2_eq_of q e h0 h1 h2]
  exact hr

lemma vstepF32_eval_pos (v r : ℚ) (e : ℤ) (hv : v < 2)
    (h0 : 0 < v + f32TwoTenths)
    (h1 : (2:ℚ) ^ e ≤ v + f32TwoTenths)
    (h2 : v + f32TwoTenths < (2:ℚ) ^ (e + 1))
    (hr : ((rne ((v + f32TwoTenths) * 2 ^ (23 - e)) : ℤ) : ℚ) * 2 ^ (e - 23) = r) :
    vstepF32 v = r := by
  simp only [vstepF32, roundF32]
  rw [if_pos hv, if_neg (not_lt.mpr h0.le)]
  exact roundPosF32_eval _ r e h0 h1 h2 hr

lemma vstepF32_eval_neg (v r : ℚ) (e : ℤ) (hv : v < 2)
    (h0 : v + f32TwoTenths < 0)
    (h1 : (2:ℚ) ^ e ≤ -(v + f32TwoTenths))
    (h2 : -(v + f32TwoTenths) < (2:ℚ) ^ (e + 1))
    (hr : ((rne (-(v + f32TwoTenths) * 2 ^ (23 - e)) : ℤ) : ℚ) * 2 ^ (e - 23) = r) :
    vstepF32 v = -r := by
  simp only [vstepF32, roundF32]
  rw [if_pos hv, if_pos h0]
  exact congrArg Neg.neg (roundPosF32_eval _ r e (by linarith) h1 h2 hr)

lemma vstepF32_fix (v : ℚ) (h : ¬ v < 2) : vstepF32 v = v := by
  simp only [vstepF32]
  rw [if_neg h]

lemma aStep1 : vstepF32 (0) = 13421773/67108864 :=
  vstepF32_eval_pos _ _ (-3) (by norm_num) (by norm_num [f32TwoTenths]) (by norm_num [f32TwoTenths]) (by norm_num [f32TwoTenths]) (by norm_num [f32TwoTenths, rne])

lemma aStep2 : vstepF32 (13421773/67108864) = 13421773/33554432 :=
  vstepF32_eval_pos _ _ (-2) (by norm_num) (by norm_num [f32TwoTenths]) (by norm_num [f32TwoTenths]) (by norm_num [f32TwoTenths]) (by norm_num [f32TwoTenths, rne])

lemma aStep3 : vstepF32 (13421773/33554432) = 5033165/8388608 :=
  vstepF32_eval_pos _ _ (-1) (by norm_num) (by norm_num [f32TwoTenths]) (by norm_num [f32TwoTenths]) (by norm_num [f32TwoTenths]) (by norm_num [f32TwoTenths, rne])

lemma aStep4 : vstepF32 (5033165/8388608) = 13421773/16777216 :=
  vstepF32_eval_pos _ _ (-1) (by norm_num) (by norm_num [f32TwoTenths]) (by norm_num [f32TwoTenths]) (by norm_num [f32TwoTenths]) (by norm_num [f32TwoTenths, rne])

lemma aStep5 : vstepF32 (13421773/16777216) = 1 :=
  vstepF32_eval_pos _ _ (0) (by norm_num) (by norm_num [f32TwoTenths]) (by norm_num [f32TwoTenths]) (by norm_num [f32TwoTenths]) (by norm_num [f32TwoTenths, rne])

lemma aStep6 : vstepF32 (1) = 5033165/4194304 :=
  vstepF32_eval_pos _ _ (0) (by norm_num) (by norm_num [f32TwoTenths]) (by norm_num [f32TwoTenths]) (by norm_num [f32TwoTenths]) (by norm_num [f32TwoTenths, rne])

lemma aStep7 : vstepF32 (5033165/4194304) = 2936013/2097152 :=
  vstepF32_eval_pos _ _ (0) (by norm_num) (by norm_num [f32TwoTenths]) (by norm_num [f32TwoTenths]) (by norm_num [f32TwoTenths]) (by norm_num [f32TwoTenths, rne])

lemma aStep8 : vstepF32 (2936013/2097152) = 6710887/4194304 :=
  vstepF32_eval_pos _ _ (0) (by norm_num) (by norm_num [f32TwoTenths]) (by norm_num [f32TwoTenths]) (by norm_num [f32TwoTenths]) (by norm_num [f32TwoTenths, rne])

lemma aStep9 : vstepF32 (6710887/4194304) = 1887437/1048576 :=
  vstepF32_eval_pos _ _ (0) (by norm_num) (by norm_num [f32TwoTenths]) (by norm_num [f32TwoTenths]) (by norm_num [f32TwoTenths]) (by norm_num [f32TwoTenths, rne])

lemma aStep10 : vstepF32 (1887437/1048576) = 8388609/4194304 :=
  vstepF32_eval_pos _ _ (1) (by norm_num) (by norm_num [f32TwoTenths]) (by norm_num [f32TwoTenths]) (by norm_num [f32TwoTenths]) (by norm_num [f32TwoTenths, rne])

lemma bStep1 : vstepF32 (-2) = -(7549747/4194304) :=
  vstepF32_eval_neg _ (7549747/4194304) (0) (by norm_num) (by norm_num [f32TwoTenths]) (by norm_num [f32TwoTenths]) (by norm_num [f32TwoTenths]) (by norm_num [f32TwoTenths, rne])

lemma bStep2 : vstepF32 (-(7549747/4194304)) = -(3355443/2097152) :=
  vstepF32_eval_neg _ (3355443/2097152) (0) (by norm_num) (by norm_num [f32TwoTenths]) (by norm_num [f32TwoTenths]) (by norm_num [f32TwoTenths]) (by norm_num [f32TwoTenths, rne])

lemma bStep3 : vstepF32 (-(3355443/2097152)) = -(5872025/4194304) :=
  vstepF32_eval_neg _ (5872025/4194304) (0) (by norm_num) (by norm_num [f32TwoTenths]) (by norm_num [f32TwoTenths]) (by norm_num [f32TwoTenths]) (by norm_num [f32TwoTenths, rne])

lemma bStep4 : vstepF32 (-(5872025/4194304)) = -(1258291/1048576) :=
  vstepF32_eval_neg _ (1258291/1048576) (0) (by norm_num) (by norm_num [f32TwoTenths]) (by norm_num [f32TwoTenths]) (by norm_num [f32TwoTenths]) (by norm_num [f32TwoTenths, rne])

lemma bStep5 : vstepF32 (-(1258291/1048576)) = -(16777213/16777216) :=
  vstepF32_eval_neg _ (16777213/16777216) (-1) (by norm_num) (by norm_num [f32TwoTenths]) (by norm_num [f32TwoTenths]) (by norm_num [f32TwoTenths]) (by norm_num [f32TwoTenths, rne])

lemma bStep6 : vstepF32 (-(16777213/16777216)) = -(6710885/8388608) :=
  vstepF32_eval_neg _ (6710885/8388608) (-1) (by norm_num) (by norm_num [f32TwoTenths]) (by norm_num [f32TwoTenths]) (by norm_num [f32TwoTenths]) (by norm_num [f32TwoTenths, rne])

lemma bStep7 : vstepF32 (-(6710885/8388608)) = -(10066327/16777216) :=
  vstepF32_eval_neg _ (10066327/16777216) (-1) (by norm_num) (by norm_num [f32TwoTenths]) (by norm_num [f32TwoTenths]) (by norm_num [f32TwoTenths]) (by norm_num [f32TwoTenths, rne])

lemma bStep8 : vstepF32 (-(10066327/16777216)) = -(1677721/4194304) :=
  vstepF32_eval_neg _ (1677721/4194304) (-2) (by norm_num) (by norm_num [f32TwoTenths]) (by norm_num [f32TwoTenths]) (by norm_num [f32TwoTenths]) (by norm_num [f32TwoTenths, rne])

lemma bStep9 : vstepF32 (-(1677721/4194304)) = -(13421763/67108864) :=
  vstepF32_eval_neg _ (13421763/67108864) (-3) (by norm_num) (by norm_num [f32TwoTenths]) (by norm_num [f32TwoTenths]) (by norm_num [f32TwoTenths]) (by norm_num [f32TwoTenths, rne])

lemma bStep10 : vstepF32 (-(13421763/67108864)) = 5/33554432 :=
  vstepF32_eval_pos _ _ (-23) (by norm_num) (by norm_num [f32TwoTenths]) (by norm_num [f32TwoTenths]) (by norm_num [f32TwoTenths]) (by norm_num [f32TwoTenths, rne])

lemma bStep11 : vstepF32 (5/33554432) = 13421783/67108864 :=
  vstepF32_eval_pos _ _ (-3) (by norm_num) (by norm_num [f32TwoTenths]) (by norm_num [f32TwoTenths]) (by norm_num [f32TwoTenths]) (by norm_num [f32TwoTenths, rne])

lemma bStep12 : vstepF32 (13421783/67108864) = 6710889/16777216 :=
  vstepF32_eval_pos _ _ (-2) (by norm_num) (by norm_num [f32TwoTenths]) (by norm_num [f32TwoTenths]) (by norm_num [f32TwoTenths]) (by norm_num [f32TwoTenths, rne])

lemma bStep13 : vstepF32 (6710889/16777216) = 2516583/4194304 :=
  vstepF32_eval_pos _ _ (-1) (by norm_num) (by norm_num [f32TwoTenths]) (by norm_num [f32TwoTenths]) (by norm_num [f32TwoTenths]) (by norm_num [f32TwoTenths, rne])

lemma bStep14 : vstepF32 (2516583/4194304) = 13421775/16777216 :=
  vstepF32_eval_pos _ _ (-1) (by norm_num) (by norm_num [f32TwoTenths]) (by norm_num [f32TwoTenths]) (by norm_num [f32TwoTenths]) (by norm_num [f32TwoTenths, rne])

lemma bStep15 : vstepF32 (13421775/16777216) = 8388609/8388608 :=
  vstepF32_eval_pos _ _ (0) (by norm_num) (by norm_num [f32TwoTenths]) (by norm_num [f32TwoTenths]) (by norm_num [f32TwoTenths]) (by norm_num [f32TwoTenths, rne])

lemma bStep16 : vstepF32 (8388609/8388608) = 10066331/8388608 :=
  vstepF32_eval_pos _ _ (0) (by norm_num) (by norm_num [f32TwoTenths]) (by norm_num [f32TwoTenths]) (by norm_num [f32TwoTenths]) (by norm_num [f32TwoTenths, rne])

lemma bStep17 : vstepF32 (10066331/8388608) = 11744053/8388608 :=
  vstepF32_eval_pos _ _ (0) (by norm_num) (by norm_num [f32TwoTenths]) (by norm_num [f32TwoTenths]) (by norm_num [f32TwoTenths]) (by norm_num [f32TwoTenths, rne])

lemma bStep18 : vstepF32 (11744053/8388608) = 13421775/8388608 :=
  vstepF32_eval_pos _ _ (0) (by norm_num) (by norm_num [f32TwoTenths]) (by norm_num [f32TwoTenths]) (by norm_num [f32TwoTenths]) (by norm_num [f32TwoTenths, rne])

lemma bStep19 : vstepF32 (13421775/8388608) = 15099497/8388608 :=
  vstepF32_eval_pos _ _ (0) (by norm_num) (by norm_num [f32TwoTenths]) (by norm_num [f32TwoTenths]) (by norm_num [f32TwoTenths]) (by norm_num [f32TwoTenths, rne])

lemma bStep20 : vstepF32 (15099497/8388608) = 8388609/4194304 :=
  vstepF32_eval_pos _ _ (1) (by norm_num) (by norm_num [f32TwoTenths]) (by norm_num [f32TwoTenths]) (by norm_num [f32TwoTenths]) (by norm_num [f32TwoTenths, rne])

lemma aF32_ge (n : ℕ) (h : 10 ≤ n) : aF32 n = VF32CAP := by
  rcases Nat.lt_or_ge n 11 with h2 | h2
  · have h3 : n = 10 := by omega
    subst h3
    rfl
  · exact List.getD_eq_default _ _ (by simp [aF32List]; omega)

lemma bF32_ge (n : ℕ) (h : 20 ≤ n) : bF32 n = VF32CAP := by
  rcases Nat.lt_or_ge n 21 with h2 | h2
  · have h3 : n = 20 := by omega
    subst h3
    rfl
  · exact List.getD_eq_default _ _ (by simp [bF32List]; omega)

lemma aF32_iterate : ∀ n : ℕ, (vstepF32)^[n] 0 = aF32 n := by
  intro n
  induction n with
  | zero => rfl
  | succ n ih =>
    rw [Function.iterate_succ_apply', ih]
    rcases Nat.lt_or_ge n 10 with h | h
    · interval_cases n
      · exact aStep1
      · exact aStep2
      · exact aStep3
      · exact aStep4
      · exact aStep5
      · exact aStep6
      · exact aStep7
      · exact aStep8
      · exact aStep9
      · exact aStep10
    · rw [aF32_ge n h, aF32_ge (n + 1) (by omega)]
      exact vstepF32_fix _ (by norm_num [VF32CAP])

lemma bF32_iterate : ∀ n : ℕ, (vstepF32)^[n] (-2) = bF32 n := by
  intro n
  induction n with
  | zero => rfl
  | succ n ih =>
    rw [Function.iterate_succ_apply', ih]
    rcases Nat.lt_or_ge n 20 with h | h
    · interval_cases n
      · exact bStep1
      · exact bStep2
      · exact bStep3
      · exact bStep4
      · exact bStep5
      · exact bStep6
      · exact bStep7
      · exact bStep8
      · exact bStep9
      · exact bStep10
      · exact bStep11
      · exact bStep12
      · exact bStep13
      · exact bStep14
      · exact bStep15
      · exact bStep16
      · exact bStep17
      · exact bStep18
      · exact bStep19
      · exact bStep20
    · rw [bF32_ge n h, bF32_ge (n + 1) (by omega)]
      exact vstepF32_fix _ (by norm_num [VF32CAP])

lemma aF32_le (n : ℕ) : aF32 n ≤ VF32CAP := by
  rcases Nat.lt_or_ge n 11 with h | h
  · interval_cases n <;> norm_num [aF32, aF32List, VF32CAP]
  · rw [aF32_ge n (by omega)]

lemma bF32_le (n : ℕ) : bF32 n ≤ VF32CAP := by
  rcases Nat.lt_or_ge n 21 with h | h
  · interval_cases n <;> norm_num [bF32, bF32List, VF32CAP]
  · rw [bF32_ge n (by omega)]

lemma velF32Reach_applyOp (v : ℚ) (h : VelF32Reach v) (op : PlayerOp) :
    VelF32Reach (applyVelF32 v op) := by
  cases op with
  | gravity =>
    rcases h with ⟨n, rfl⟩ | ⟨n, rfl⟩
    · refine Or.inl ⟨n + 1, ?_⟩
      show vstepF32 ((vstepF32)^[n] 0) = (vstepF32)^[n + 1] 0
      exact (Function.iterate_succ_apply' _ _ _).symm
    · refine Or.inr ⟨n + 1, ?_⟩
      show vstepF32 ((vstepF32)^[n] (-2)) = (vstepF32)^[n + 1] (-2)
      exact (Function.iterate_succ_apply' _ _ _).symm
  | flap => exact Or.inr ⟨0, rfl⟩

lemma velF32Ops_reach (ops : List PlayerOp) :
    ∀ v : ℚ, VelF32Reach v → VelF32Reach (velF32Ops v ops) := by
  induction ops with
  | nil => intro v h; exact h
  | cons op ops ih =>
    intro v h
    exact ih _ (velF32Reach_applyOp v h op)

lemma velF32Reach_le (v : ℚ) (h : VelF32Reach v) : v ≤ VF32CAP := by
  rcases h with ⟨n, rfl⟩ | ⟨n, rfl⟩
  · rw [aF32_iterate]
    exact aF32_le n
  · rw [bF32_iterate]
    exact bF32_le n

/-- C3, counterexample: under the exact binary32 (`f32`) arithmetic the
source uses, the velocity does not behave as claimed: starting from the
initial velocity `0`, the tenth `gravity_and_move` call produces a
velocity strictly greater than `2.0` (namely `2 + 2 ^ (-22)`), the very
first call adds `f32TwoTenths ≠ 0.2`, and "velocity never exceeds the cap
`2.0`" fails at step `10`. -/
theorem C3_counterexample :
    2 < (vstepF32)^[10] 0 ∧
    (vstepF32)^[1] 0 - (vstepF32)^[0] 0 ≠ 1/5 ∧
    ¬ (∀ n : ℕ, (vstepF32)^[n] 0 ≤ 2) := by
  refine ⟨?_, ?_, ?_⟩
  · rw [aF32_iterate]
    norm_num [aF32, aF32List]
  · rw [aF32_iterate, aF32_iterate]
    norm_num [aF32, aF32List]
  · intro hall
    have h10 := hall 10
    rw [aF32_iterate] at h10
    norm_num [aF32, aF32List] at h10

/-- C3, amended: under exact binary32 (`f32`) arithmetic, from the
initial velocity `0` the velocity stays below `2.0` for the first nine
gravity steps, rising by `0.2` only approximately (within `2 ^ (-21)` of
`0.2` per step); the tenth step overshoots the cap to
`VF32CAP = 2 + 2 ^ (-22) > 2`, after which gravity leaves the velocity
unchanged; from `-2.0` (the velocity after any flap) the same happens at
the twentieth step; and in every player state reachable by gravity steps
and flaps the velocity never exceeds `VF32CAP`. -/
theorem C3_velocity_f32 :
    2 < VF32CAP ∧
    (∀ n : ℕ, n < 10 → (vstepF32)^[n] 0 < 2) ∧
    (∀ n : ℕ, 10 ≤ n → (vstepF32)^[n] 0 = VF32CAP) ∧
    (∀ n : ℕ, n < 10 →
      |(vstepF32)^[n + 1] 0 - (vstepF32)^[n] 0 - 1/5| ≤ 1/2097152) ∧
    (∀ n : ℕ, n < 20 → (vstepF32)^[n] (-2) < 2) ∧
    (∀ n : ℕ, 20 ≤ n → (vstepF32)^[n] (-2) = VF32CAP) ∧
    (∀ ops : List PlayerOp, velF32Ops 0 ops ≤ VF32CAP) := by
  refine ⟨by norm_num [VF32CAP], ?_, ?_, ?_, ?_, ?_, ?_⟩
  · intro n h
    rw [aF32_iterate]
    interval_cases n <;> norm_num [aF32, aF32List]
  · intro n h
    rw [aF32_iterate, aF32_ge n h]
  · intro n h
    rw [aF32_iterate, aF32_iterate, abs_le]
    interval_cases n <;> constructor <;> norm_num [aF32, aF32List]
  · intro n h
    rw [bF32_iterate]
    interval_cases n <;> norm_num [bF32, bF32List]
  · intro n h
    rw [bF32_iterate, bF32_ge n h]
  · intro ops
    exact velF32Reach_le _ (velF32Ops_reach ops 0 (Or.inl ⟨0, rfl⟩))

/-- Witness for C3 (amended) at the concrete step counts `9`, `10` and
`20`. -/
theorem C3_velocity_f32_witness :
    (vstepF32)^[9] 0 < 2 ∧ (vstepF32)^[10] 0 = VF32CAP ∧
    (vstepF32)^[20] (-2) = VF32CAP :=
  ⟨C3_velocity_f32.2.1 9 (by decide), C3_velocity_f32.2.2.1 10 (by decide),
   C3_velocity_f32.2.2.2.2.2.1 20 (by decide)⟩

end Flappy
